import Mathlib

/-!
Verification development for the swayimg remote-image prefetch pipeline.

The definitions below are a shallow embedding of the C sources:
  - src/imageprefetcher.c : the ring buffer, its cursor operations and the
    background worker loop (namespace Prefetcher);
  - src/imagedownloader.c : the HTTP downloader with optional disk mirror
    (namespace Downloader);
  - src/imagelist.c : the facade, together with its older embedded copy of
    the prefetcher and downloader (namespace ImageListC).

Image handles are opaque in the C code; they are modelled as natural
numbers, and a C NULL image pointer is `Option.none`.  Machine integers
(size_t) only ever hold small indices here and all arithmetic in the code
is already explicitly modular, so they are modelled as Nat with `% size`
written where the code writes it.
-/

namespace Swayimg

/-- Opaque image handle (struct image*); a NULL pointer is `none` at use sites. -/
abbrev Img := Nat

namespace Prefetcher

/-- Shared ring state of struct image_prefetcher_ctx (imageprefetcher.c):
cache size, prefetch target, read cursor, write cursor, slot array.
A slot holding `none` models a NULL entry in image_cache. -/
structure RingState where
  cacheSize : Nat
  prefetchN : Nat
  r : Nat
  w : Nat
  cache : List (Option Img)
  deriving Repr, DecidableEq

/-- Ring state right after image_prefetcher_start succeeded:
all slots are zeroed (memset), both cursors are 0. -/
def initRing (cacheSize prefetchN : Nat) : RingState :=
  { cacheSize := cacheSize
  , prefetchN := prefetchN
  , r := 0
  , w := 0
  , cache := List.replicate cacheSize none }

/-- image_prefetcher_get_cached (imageprefetcher.c lines 193-205): number of
cached images ahead of the read cursor, computed exactly as in the code. -/
def countCached (s : RingState) : Nat :=
  if s.w ≥ s.r then s.w - s.r else s.w + s.cacheSize - s.r

/-- Result of a cursor operation: the returned image (NULL modelled as none),
the ring state afterwards, and whether the condition variable was signalled. -/
structure JumpResult where
  ret : Option Img
  state : RingState
  signaled : Bool
  deriving Repr, DecidableEq

/-- image_prefetcher_jump_next (imageprefetcher.c lines 207-246).
The buffer-empty and at-head tests mirror the two C booleans; the
broadcast at the end of the function happens on every path. -/
def jumpNext (s : RingState) : JumpResult :=
  let nextIdx := (s.r + 1) % s.cacheSize
  let bufferEmpty := s.w == s.r
  let wouldMoveOverWritePtr := nextIdx == s.w
  if bufferEmpty then
    { ret := none, state := s, signaled := true }
  else if wouldMoveOverWritePtr then
    { ret := s.cache.getD s.r none, state := s, signaled := true }
  else
    { ret := s.cache.getD nextIdx none
    , state := { s with r := nextIdx }
    , signaled := true }

/-- image_prefetcher_jump_prev (imageprefetcher.c lines 248-272).
maybe_prev is computed with the same zero test as the code; the function
never signals the condition variable. -/
def jumpPrev (s : RingState) : JumpResult :=
  let maybePrev := if s.r == 0 then s.cacheSize - 1 else s.r - 1
  if maybePrev == s.w || (s.cache.getD maybePrev none).isNone then
    { ret := none, state := s, signaled := false }
  else
    { ret := s.cache.getD maybePrev none
    , state := { s with r := maybePrev }
    , signaled := false }

/-- One iteration of the for-loop body of image_prefetcher_thread
(imageprefetcher.c lines 160-183): store the downloader result (possibly
NULL) into slot W and advance W, unconditionally. -/
def workerWrite (s : RingState) (img : Option Img) : RingState :=
  { s with
    cache := s.cache.set s.w img,
    w := (s.w + 1) % s.cacheSize }

/-- One wakeup of image_prefetcher_thread (imageprefetcher.c lines 154-183):
read cnt once, then run the for loop from cnt to prefetch_n, each iteration
invoking the downloader (results supplied by `imgs`, indexed by iteration)
and writing the slot. -/
def workerBatch (s : RingState) (imgs : Nat → Option Img) : RingState :=
  let cnt := countCached s
  (List.range (s.prefetchN - cnt)).foldl (fun t i => workerWrite t (imgs i)) s

/-- Interleavable atomic steps on the shared ring: a single worker
write (one critical section of the thread loop) or a reader cursor
operation. -/
inductive Step : RingState → RingState → Prop where
  | write (s : RingState) (img : Option Img) : Step s (workerWrite s img)
  | next (s : RingState) : Step s (jumpNext s).state
  | prev (s : RingState) : Step s (jumpPrev s).state

/-- States reachable from a freshly started ring by any interleaving of
worker writes and reader jumps. -/
inductive Reachable (cacheSize prefetchN : Nat) : RingState → Prop where
  | init : Reachable cacheSize prefetchN (initRing cacheSize prefetchN)
  | step {s t : RingState} :
      Reachable cacheSize prefetchN s → Step s t →
      Reachable cacheSize prefetchN t

/-- Outcome of image_prefetcher_start: success with the resulting ring,
a false return, or a call to abort(). -/
inductive StartResult where
  | ok (s : RingState)
  | fail
  | aborted
  deriving Repr, DecidableEq

/-- image_prefetcher_start (imageprefetcher.c lines 70-116), on the success
path of malloc and pthread_create.  `started` models ctx->thread being
nonzero; r and w are the cursor values found in the context. -/
def start (started : Bool) (r w cacheSize prefetchN : Nat) : StartResult :=
  if started || r != 0 || w != 0 then
    StartResult.aborted
  else if cacheSize == 0 then
    StartResult.fail
  else if prefetchN == 0 then
    StartResult.fail
  else
    let pn := if prefetchN > cacheSize then cacheSize else prefetchN
    StartResult.ok (initRing cacheSize pn)

end Prefetcher

namespace ImageListC

open Prefetcher

/-- The static image_prefetcher_start embedded in imagelist.c (lines 77-118).
Unlike the standalone module it returns void and calls abort() on every
failure path; in particular the clamp branch (lines 97-104) sets
prefetch_n to cache_size and then immediately calls abort(). -/
def prefetcherStart (r w cacheSize prefetchN : Nat) : StartResult :=
  if r != 0 || w != 0 then
    StartResult.aborted
  else if cacheSize == 0 then
    StartResult.aborted
  else if prefetchN == 0 then
    StartResult.aborted
  else if prefetchN > cacheSize then
    StartResult.aborted
  else
    StartResult.ok (initRing cacheSize prefetchN)

/-- The static image_prefetcher_jump_next embedded in imagelist.c
(lines 204-233): empty check, then a NULL check on the next slot (the
logged BUG branch, which returns NULL without moving), else move. -/
def jumpNextIL (s : RingState) : JumpResult :=
  let nextIdx := (s.r + 1) % s.cacheSize
  if s.w == s.r then
    { ret := none, state := s, signaled := true }
  else if (s.cache.getD nextIdx none).isNone then
    { ret := none, state := s, signaled := true }
  else
    { ret := s.cache.getD nextIdx none
    , state := { s with r := nextIdx }
    , signaled := true }

/-- The static image_prefetcher_jump_prev embedded in imagelist.c
(lines 239-258); identical logic to the standalone module, no signal. -/
def jumpPrevIL (s : RingState) : JumpResult :=
  let maybePrev := if s.r == 0 then s.cacheSize - 1 else s.r - 1
  if maybePrev == s.w || (s.cache.getD maybePrev none).isNone then
    { ret := none, state := s, signaled := false }
  else
    { ret := s.cache.getD maybePrev none
    , state := { s with r := maybePrev }
    , signaled := false }

/-- Jump directions of enum list_jump (imagelist.h). -/
inductive ListJump where
  | firstFile
  | lastFile
  | nextFile
  | prevFile
  | nextDir
  | prevDir
  deriving Repr, DecidableEq

/-- The facade state (struct image_list, imagelist.c lines 318-325)
restricted to the fields the jump and current operations touch. -/
structure FacadeState where
  prefetcher : RingState
  noImg : Option Img
  current : Option Img
  deriving Repr, DecidableEq

/-- struct image_entry as returned by image_list_current. -/
structure ImageEntry where
  index : Nat
  image : Option Img
  deriving Repr, DecidableEq

/-- image_list_current (imagelist.c lines 544-551). -/
def imageListCurrent (s : FacadeState) : ImageEntry :=
  { index := 42, image := s.current }

/-- image_list_jump (imagelist.c lines 563-582): first/last/dir verbs
return false; next_file and prev_file delegate to the embedded prefetcher
cursor operations, replace current with the returned image or the
placeholder, and report whether an image came back. -/
def imageListJump (j : ListJump) (s : FacadeState) : Bool × FacadeState :=
  match j with
  | ListJump.firstFile => (false, s)
  | ListJump.lastFile => (false, s)
  | ListJump.nextDir => (false, s)
  | ListJump.prevDir => (false, s)
  | ListJump.nextFile =>
      let res := jumpNextIL s.prefetcher
      ( res.ret.isSome
      , { s with
          prefetcher := res.state,
          current := match res.ret with
            | some i => some i
            | none => s.noImg } )
  | ListJump.prevFile =>
      let res := jumpPrevIL s.prefetcher
      ( res.ret.isSome
      , { s with
          prefetcher := res.state,
          current := match res.ret with
            | some i => some i
            | none => s.noImg } )

end ImageListC

namespace Downloader

/-- struct downloader_ctx (imagedownloader.c lines 53-63), restricted to the
fields that carry state across calls.  mem_buf together with mem_buf_sz is
the byte list memBuf; download_fname and fp are per-call scratch. -/
structure DownloaderCtx where
  wwwUrl : String
  wwwCacheDir : Option String
  cleanCacheAfterUse : Bool
  curlHandle : Bool
  memBuf : List Nat
  imgDownloadCnt : Nat
  deriving Repr, DecidableEq

/-- Environment of a single downloader_get_one call: whether fopen on the
mirror file succeeds, the body chunks curl delivers to write_data, the
per-chunk fwrite results (failures are only logged), and whether
curl_easy_perform reports overall success. -/
structure FetchEnv where
  fopenOk : Bool
  chunks : List (List Nat)
  fwriteResults : List Bool
  httpOk : Bool
  deriving Repr, DecidableEq

/-- Observable outcome of downloader_get_one: the returned image pointer,
the context afterwards, the mirror file path targeted by snprintf (none
when no cache dir is configured), whether curl_easy_perform ran, the
buffer handed to image_create (none if never reached), and how many
failed-fwrite diagnostics were logged. -/
structure FetchResult where
  ret : Option Img
  ctx : DownloaderCtx
  mirrorPath : Option String
  performedHttp : Bool
  decoderInput : Option (List Nat)
  diskWriteErrorLogs : Nat
  deriving Repr, DecidableEq

/-- The mirror filename built by snprintf(buf, MAX_PATH_LEN, format string
with percent-s slash percent-ld underscore img.jpg, dir, n). -/
def mirrorName (dir : String) (n : Nat) : String :=
  dir ++ "/" ++ toString n ++ "_img.jpg"

/-- The curl_easy_perform phase of downloader_get_one (imagedownloader.c
lines 212-239) together with the write_data callback (lines 171-195):
every delivered chunk is appended to mem_buf (fwrite failures are logged
and otherwise ignored); on curl failure the function returns NULL leaving
mem_buf as accumulated; on curl success the accumulated buffer is handed
to image_create and mem_buf is freed and reset. -/
def performFetch (imageCreate : List Nat → Option Img) (ctx : DownloaderCtx)
    (env : FetchEnv) (fname : Option String) : FetchResult :=
  let mirroring := ctx.wwwCacheDir.isSome
  let logs := if mirroring then env.fwriteResults.count false else 0
  let buf := ctx.memBuf ++ env.chunks.flatten
  if !env.httpOk then
    { ret := none
    , ctx := { ctx with memBuf := buf }
    , mirrorPath := fname
    , performedHttp := true
    , decoderInput := none
    , diskWriteErrorLogs := logs }
  else
    { ret := imageCreate buf
    , ctx := { ctx with memBuf := [] }
    , mirrorPath := fname
    , performedHttp := true
    , decoderInput := some buf
    , diskWriteErrorLogs := logs }

/-- downloader_get_one (imagedownloader.c lines 197-240).  With a cache dir
configured it first builds the mirror filename from the post-incremented
per-context counter and opens it; an fopen failure returns NULL before
curl_easy_perform ever runs.  Then the fetch phase of performFetch. -/
def downloaderGetOne (imageCreate : List Nat → Option Img)
    (ctx : DownloaderCtx) (env : FetchEnv) : FetchResult :=
  match ctx.wwwCacheDir with
  | some dir =>
      let fname := mirrorName dir ctx.imgDownloadCnt
      let ctx1 := { ctx with imgDownloadCnt := ctx.imgDownloadCnt + 1 }
      if !env.fopenOk then
        { ret := none
        , ctx := ctx1
        , mirrorPath := some fname
        , performedHttp := false
        , decoderInput := none
        , diskWriteErrorLogs := 0 }
      else
        performFetch imageCreate ctx1 env (some fname)
  | none => performFetch imageCreate ctx env none

/-- downloader_init (imagedownloader.c lines 67-148) on the success path of
allocation and curl setup.  `dirOk` models the opendir test on the cache
directory.  The per-context download counter starts at 0 and the in-memory
buffer starts empty. -/
def downloaderInit (url : Option String) (cacheDir : Option String)
    (dirOk cleanAfterUse : Bool) : Option DownloaderCtx :=
  match url with
  | none => none
  | some u =>
      match cacheDir with
      | some d =>
          if !dirOk then none
          else some
            { wwwUrl := u, wwwCacheDir := some d
            , cleanCacheAfterUse := cleanAfterUse
            , curlHandle := true, memBuf := [], imgDownloadCnt := 0 }
      | none => some
          { wwwUrl := u, wwwCacheDir := none
          , cleanCacheAfterUse := cleanAfterUse
          , curlHandle := true, memBuf := [], imgDownloadCnt := 0 }

/-- Sequence of downloader_get_one calls on one context, collecting each
observable outcome of each call in order. -/
def runCalls (imageCreate : List Nat → Option Img) (ctx : DownloaderCtx) :
    List FetchEnv → List FetchResult
  | [] => []
  | env :: rest =>
      let res := downloaderGetOne imageCreate ctx env
      res :: runCalls imageCreate res.ctx rest

/-- Teardown actions of downloader_free, in program order. -/
inductive DlFreeAction where
  | curlEasyCleanup
  | curlGlobalCleanup
  | cleanCacheDir
  | freeCtxMem
  deriving Repr, DecidableEq

/-- downloader_free (imagedownloader.c lines 150-169): a NULL handle
returns immediately; otherwise curl teardown, an optional cache clean when
a cache dir is set and cleanup was requested, then the frees. -/
def downloaderFree (ctx : Option DownloaderCtx) : List DlFreeAction :=
  match ctx with
  | none => []
  | some c =>
      (if c.curlHandle then [DlFreeAction.curlEasyCleanup] else [])
      ++ [DlFreeAction.curlGlobalCleanup]
      ++ (if c.wwwCacheDir.isSome && c.cleanCacheAfterUse then
            [DlFreeAction.cleanCacheDir] else [])
      ++ [DlFreeAction.freeCtxMem]

end Downloader

namespace Prefetcher

/-- Whole prefetcher context as far as destruction is concerned:
whether ctx->thread is nonzero (a worker was spawned) plus the ring. -/
structure PrefCtx where
  threadStarted : Bool
  ring : RingState
  deriving Repr, DecidableEq

/-- Context produced by image_prefetcher_init (imageprefetcher.c lines
34-68): thread = 0, cache size 0, both cursors 0, no cache array. -/
def initCtx : PrefCtx :=
  { threadStarted := false, ring := initRing 0 0 }

/-- Teardown actions of image_prefetcher_free, in program order. -/
inductive FreeAction where
  | cancelThread
  | joinThread
  | destroyCondvar
  | destroyMutex
  | freeSlot (i : Nat) (img : Option Img)
  | freeCacheArray
  | freeCtxMem
  deriving Repr, DecidableEq

/-- image_prefetcher_free (imageprefetcher.c lines 118-147): NULL handle
returns immediately; the cancel/join/condvar/mutex teardown happens only
if a thread was spawned; then image_free on every slot, then the frees. -/
def prefetcherFree (ctx : Option PrefCtx) : List FreeAction :=
  match ctx with
  | none => []
  | some c =>
      (if c.threadStarted then
        [FreeAction.cancelThread, FreeAction.joinThread,
         FreeAction.destroyCondvar, FreeAction.destroyMutex]
       else [])
      ++ (List.range c.ring.cacheSize).map
          (fun i => FreeAction.freeSlot i (c.ring.cache.getD i none))
      ++ [FreeAction.freeCacheArray, FreeAction.freeCtxMem]

end Prefetcher

/-! ## Helper lemmas -/

namespace Prefetcher

/-- The cached count as computed by the code is at most cache_size − 1
whenever both cursors are in range. -/
theorem countCached_le_of_bounds (s : RingState) (hcs : 0 < s.cacheSize)
    (hw : s.w < s.cacheSize) :
    countCached s ≤ s.cacheSize - 1 := by
  unfold countCached
  split <;> omega

/-- A single worker write starting below the count ceiling cannot land the
write cursor on the read cursor. -/
theorem workerWrite_no_collision (s : RingState) (hcs : 0 < s.cacheSize)
    (hr : s.r < s.cacheSize) (hw : s.w < s.cacheSize)
    (hcnt : countCached s < s.cacheSize - 1) (img : Option Img) :
    (workerWrite s img).w ≠ (workerWrite s img).r := by
  unfold workerWrite countCached at *
  simp only
  intro heq
  rcases Nat.lt_or_ge (s.w + 1) s.cacheSize with h | h
  · rw [Nat.mod_eq_of_lt h] at heq
    split at hcnt <;> omega
  · have hw1 : s.w + 1 = s.cacheSize := by omega
    rw [hw1, Nat.mod_self] at heq
    split at hcnt <;> omega

/-- jump_next either leaves the state unchanged or advances the read
cursor one slot modulo cache_size. -/
theorem jumpNext_state_cases (s : RingState) :
    (jumpNext s).state = s ∨
      (jumpNext s).state = { s with r := (s.r + 1) % s.cacheSize } := by
  simp only [jumpNext]
  split
  · exact Or.inl rfl
  · split
    · exact Or.inl rfl
    · exact Or.inr rfl

/-- jump_prev either leaves the state unchanged or moves the read cursor
to the maybe_prev index computed by the code. -/
theorem jumpPrev_state_cases (s : RingState) :
    (jumpPrev s).state = s ∨
      (jumpPrev s).state =
        { s with r := if s.r == 0 then s.cacheSize - 1 else s.r - 1 } := by
  simp only [jumpPrev]
  by_cases h : ((if s.r == 0 then s.cacheSize - 1 else s.r - 1) == s.w
      || (s.cache.getD (if s.r == 0 then s.cacheSize - 1 else s.r - 1)
            none).isNone) = true
  · rw [if_pos h]
    exact Or.inl rfl
  · rw [if_neg h]
    exact Or.inr rfl

/-- For an in-range read cursor, the maybe_prev index of the code equals
the modular decrement (R + cache_size − 1) mod cache_size of the spec. -/
theorem maybePrev_eq_mod (s : RingState) (hcs : 0 < s.cacheSize)
    (hr : s.r < s.cacheSize) :
    (if s.r = 0 then s.cacheSize - 1 else s.r - 1) =
      (s.r + s.cacheSize - 1) % s.cacheSize := by
  by_cases h0 : s.r = 0
  · rw [if_pos h0, h0, Nat.mod_eq_of_lt (by omega)]
    omega
  · rw [if_neg h0]
    have hsplit : s.r + s.cacheSize - 1 = s.cacheSize + (s.r - 1) := by omega
    rw [hsplit, Nat.add_mod_left, Nat.mod_eq_of_lt (by omega)]

end Prefetcher

/-! ## Claim theorems -/

/-- C2: jump_next follows the three-case cursor state machine: with
W == R it does not move and returns nothing; with (R+1) mod cache_size == W
it does not move and returns the image at R; otherwise it sets R to
(R+1) mod cache_size and returns the image in that slot (signalling the
worker on every path). -/
theorem c2_jump_next_state_machine (s : Prefetcher.RingState) :
    Prefetcher.jumpNext s =
      if s.w = s.r then
        { ret := none, state := s, signaled := true }
      else if (s.r + 1) % s.cacheSize = s.w then
        { ret := s.cache.getD s.r none, state := s, signaled := true }
      else
        { ret := s.cache.getD ((s.r + 1) % s.cacheSize) none
        , state := { s with r := (s.r + 1) % s.cacheSize }
        , signaled := true } := by
  by_cases h1 : s.w = s.r
  · simp [Prefetcher.jumpNext, h1]
  · by_cases h2 : (s.r + 1) % s.cacheSize = s.w <;>
      simp [Prefetcher.jumpNext, h1, h2]

/-- C3: jump_prev returns nothing and leaves R unchanged exactly when
(R−1) mod cache_size equals W or that slot is empty; otherwise it moves R
there and returns the image in that slot; and it never signals the
condition variable (in particular not in the returns-nothing case). -/
theorem c3_jump_prev_state_machine (s : Prefetcher.RingState)
    (hcs : 0 < s.cacheSize) (hr : s.r < s.cacheSize) :
    Prefetcher.jumpPrev s =
      if (s.r + s.cacheSize - 1) % s.cacheSize = s.w ∨
          s.cache.getD ((s.r + s.cacheSize - 1) % s.cacheSize) none = none then
        { ret := none, state := s, signaled := false }
      else
        { ret := s.cache.getD ((s.r + s.cacheSize - 1) % s.cacheSize) none
        , state := { s with r := (s.r + s.cacheSize - 1) % s.cacheSize }
        , signaled := false } := by
  have hprev := Prefetcher.maybePrev_eq_mod s hcs hr
  simp only [Prefetcher.jumpPrev, hprev, Bool.or_eq_true, beq_iff_eq,
    Option.isNone_iff_eq_none]

/-- C3 witness: the state machine evaluated at a concrete ring where the
previous slot is available, via the main theorem. -/
theorem c3_jump_prev_witness :
    Prefetcher.jumpPrev
        { cacheSize := 3, prefetchN := 2, r := 2, w := 0
        , cache := [some 5, some 6, some 7] } =
      if ((2 : Nat) + 3 - 1) % 3 = 0 ∨
          ([some 5, some 6, some 7] : List (Option Img)).getD
            ((2 + 3 - 1) % 3) none = none then
        { ret := none
        , state := { cacheSize := 3, prefetchN := 2, r := 2, w := 0
                   , cache := [some 5, some 6, some 7] }
        , signaled := false }
      else
        { ret := ([some 5, some 6, some 7] : List (Option Img)).getD
            ((2 + 3 - 1) % 3) none
        , state := { cacheSize := 3, prefetchN := 2, r := (2 + 3 - 1) % 3, w := 0
                   , cache := [some 5, some 6, some 7] }
        , signaled := false } :=
  c3_jump_prev_state_machine
    { cacheSize := 3, prefetchN := 2, r := 2, w := 0
    , cache := [some 5, some 6, some 7] } (by decide) (by decide)

namespace Prefetcher

/-- Folding worker writes leaves the read cursor and the cache size alone,
and drives the write cursor identically for any two image sequences of the
same iteration range. -/
theorem foldl_workerWrite_cursors (L : List Nat) (f g : Nat → Option Img) :
    ∀ s t : RingState, s.w = t.w → s.r = t.r → s.cacheSize = t.cacheSize →
      (L.foldl (fun u i => workerWrite u (f i)) s).w =
        (L.foldl (fun u i => workerWrite u (g i)) t).w ∧
      (L.foldl (fun u i => workerWrite u (f i)) s).r = s.r ∧
      (L.foldl (fun u i => workerWrite u (f i)) s).cacheSize = s.cacheSize := by
  induction L with
  | nil =>
      intro s t hw hr hc
      exact ⟨hw, rfl, rfl⟩
  | cons a L ih =>
      intro s t hw hr hc
      simp only [List.foldl_cons]
      have hstep := ih (workerWrite s (f a)) (workerWrite t (g a))
        (by simp [workerWrite, hw, hc]) (by simp [workerWrite, hr])
        (by simp [workerWrite, hc])
      refine ⟨hstep.1, ?_, ?_⟩
      · rw [hstep.2.1]
        simp [workerWrite]
      · rw [hstep.2.2]
        simp [workerWrite]

/-- The worker batch never moves the read cursor, and its write-cursor
evolution does not depend on which downloads failed. -/
theorem workerBatch_cursors (s : RingState) (imgs imgs2 : Nat → Option Img) :
    (workerBatch s imgs).w = (workerBatch s imgs2).w ∧
    (workerBatch s imgs).r = s.r := by
  have h := foldl_workerWrite_cursors
    (List.range (s.prefetchN - countCached s)) imgs imgs2 s s rfl rfl rfl
  exact ⟨h.1, h.2.1⟩

end Prefetcher

/-- C1 counterexample: from the freshly started ring of size 2, a worker
iteration whose downloader callback returned failure (NULL) does advance
the write cursor (from 0 to 1) and does store the empty value in slot 0,
contrary to the claim. -/
theorem c1_failure_write_counterexample :
    (Prefetcher.workerWrite (Prefetcher.initRing 2 1) none).w ≠
      (Prefetcher.initRing 2 1).w ∧
    (Prefetcher.workerWrite (Prefetcher.initRing 2 1) none).cache.get? 0 =
      some none := by
  decide

/-- C1 amended: on a downloader failure the worker stores the NULL result
into slot W and advances W exactly as for a success, and it keeps running:
the batch performs the same cursor evolution whatever subset of its
downloads fail, and never moves the read cursor. -/
theorem c1_failure_written_and_worker_continues (s : Prefetcher.RingState)
    (hw : s.w < s.cache.length) (imgs : Nat → Option Img) :
    (Prefetcher.workerWrite s none).w = (s.w + 1) % s.cacheSize ∧
    (Prefetcher.workerWrite s none).cache.get? s.w = some none ∧
    (Prefetcher.workerBatch s imgs).w =
      (Prefetcher.workerBatch s (fun i => some i)).w ∧
    (Prefetcher.workerBatch s imgs).r = s.r := by
  have hbatch := Prefetcher.workerBatch_cursors s imgs (fun i => some i)
  refine ⟨rfl, ?_, hbatch.1, hbatch.2⟩
  simp [Prefetcher.workerWrite, List.get?_eq_getElem?,
    List.getElem?_set_self', hw]

/-- C1 witness: the amended statement evaluated on the started ring of
size 2 with an always-failing downloader. -/
theorem c1_failure_witness :
    (Prefetcher.initRing 2 1).w < (Prefetcher.initRing 2 1).cache.length ∧
    ((Prefetcher.workerWrite (Prefetcher.initRing 2 1) none).w = (0 + 1) % 2 ∧
     (Prefetcher.workerWrite (Prefetcher.initRing 2 1) none).cache.get? 0 =
       some none ∧
     (Prefetcher.workerBatch (Prefetcher.initRing 2 1) (fun _ => none)).w =
       (Prefetcher.workerBatch (Prefetcher.initRing 2 1) (fun i => some i)).w ∧
     (Prefetcher.workerBatch (Prefetcher.initRing 2 1) (fun _ => none)).r =
       (Prefetcher.initRing 2 1).r) :=
  ⟨by decide,
   c1_failure_written_and_worker_continues (Prefetcher.initRing 2 1)
     (by decide) (fun _ => none)⟩

/-- C4 counterexample: with prefetch_n = cache_size = 2 (a configuration
start accepts, including via the clamp), the first worker batch from the
freshly started ring performs two writes and its advance of W lands W back
on R: the final state has W = R with both slots occupied. -/
theorem c4_collision_counterexample :
    (Prefetcher.workerBatch (Prefetcher.initRing 2 2) (fun i => some i)).w =
      (Prefetcher.workerBatch (Prefetcher.initRing 2 2) (fun i => some i)).r ∧
    (Prefetcher.workerBatch (Prefetcher.initRing 2 2) (fun i => some i)).cache =
      [some 0, some 1] ∧
    Prefetcher.Reachable 2 2
      (Prefetcher.workerBatch (Prefetcher.initRing 2 2) (fun i => some i)) := by
  refine ⟨by decide, by decide, ?_⟩
  show Prefetcher.Reachable 2 2
    (Prefetcher.workerWrite
      (Prefetcher.workerWrite (Prefetcher.initRing 2 2) (some 0)) (some 1))
  exact Prefetcher.Reachable.step
    (Prefetcher.Reachable.step Prefetcher.Reachable.init
      (Prefetcher.Step.write _ (some 0)))
    (Prefetcher.Step.write _ (some 1))

namespace Prefetcher

/-- Every atomic step on the ring keeps both cursors inside
[0, cache_size) and preserves the cache size. -/
theorem step_preserves_bounds (cs : Nat) (hcs : 0 < cs) (a b : RingState)
    (hstep : Step a b) (hc : a.cacheSize = cs) (hr : a.r < cs)
    (hw : a.w < cs) : b.cacheSize = cs ∧ b.r < cs ∧ b.w < cs := by
  cases hstep with
  | write img =>
      refine ⟨hc, hr, ?_⟩
      have hdef : (workerWrite a img).w = (a.w + 1) % a.cacheSize := rfl
      rw [hdef, hc]
      exact Nat.mod_lt _ hcs
  | next =>
      rcases jumpNext_state_cases a with h | h <;> rw [h]
      · exact ⟨hc, hr, hw⟩
      · refine ⟨hc, ?_, hw⟩
        have hdef :
            ({ a with r := (a.r + 1) % a.cacheSize } : RingState).r =
              (a.r + 1) % a.cacheSize := rfl
        rw [hdef, hc]
        exact Nat.mod_lt _ hcs
  | prev =>
      rcases jumpPrev_state_cases a with h | h <;> rw [h]
      · exact ⟨hc, hr, hw⟩
      · refine ⟨hc, ?_, hw⟩
        have hdef :
            ({ a with r := if a.r == 0 then a.cacheSize - 1 else a.r - 1 } :
                RingState).r =
              if a.r == 0 then a.cacheSize - 1 else a.r - 1 := rfl
        rw [hdef]
        by_cases h0 : a.r = 0
        · rw [if_pos (by simp [h0])]
          omega
        · rw [if_neg (by simp [h0])]
          omega

end Prefetcher

/-- C4 amended: on every reachable state both cursors stay in
[0, cache_size) and count_available stays in [0, cache_size − 1]; a single
worker write cannot land W on R when count_available is below
cache_size − 1 beforehand, but (per the counterexample) a batch that fills
the ring to cache_size images does land W on R. -/
theorem c4_reachable_invariants (cs pn : Nat) (hcs : 0 < cs)
    (s : Prefetcher.RingState) (hreach : Prefetcher.Reachable cs pn s)
    (img : Option Img) :
    s.cacheSize = cs ∧ s.r < cs ∧ s.w < cs ∧
    Prefetcher.countCached s ≤ cs - 1 ∧
    (Prefetcher.countCached s < cs - 1 →
      (Prefetcher.workerWrite s img).w ≠ (Prefetcher.workerWrite s img).r) := by
  have hinv : s.cacheSize = cs ∧ s.r < cs ∧ s.w < cs := by
    induction hreach with
    | init => exact ⟨rfl, hcs, hcs⟩
    | step hprev hstep ih =>
        exact Prefetcher.step_preserves_bounds cs hcs _ _ hstep
          ih.1 ih.2.1 ih.2.2
  obtain ⟨hc, hr, hw⟩ := hinv
  refine ⟨hc, hr, hw, ?_, ?_⟩
  · have := Prefetcher.countCached_le_of_bounds s (by omega) (by omega)
    omega
  · intro hcnt
    exact Prefetcher.workerWrite_no_collision s (by omega) (by omega)
      (by omega) (by omega) img

/-- C4 witness: the amended invariants evaluated at the freshly started
ring with cache_size 2 and prefetch_n 1, where a write is collision-free. -/
theorem c4_invariants_witness :
    (0 : Nat) < 2 ∧
    ((Prefetcher.initRing 2 1).cacheSize = 2 ∧
     (Prefetcher.initRing 2 1).r < 2 ∧
     (Prefetcher.initRing 2 1).w < 2 ∧
     Prefetcher.countCached (Prefetcher.initRing 2 1) ≤ 2 - 1 ∧
     (Prefetcher.workerWrite (Prefetcher.initRing 2 1) (some 7)).w ≠
       (Prefetcher.workerWrite (Prefetcher.initRing 2 1) (some 7)).r) := by
  have h := c4_reachable_invariants 2 1 (by decide) (Prefetcher.initRing 2 1)
    Prefetcher.Reachable.init (some 7)
  exact ⟨by decide, h.1, h.2.1, h.2.2.1, h.2.2.2.1, h.2.2.2.2 (by decide)⟩

/-- C5: at cache_size 10 and prefetch_n 11 the standalone module start
(imageprefetcher.c) clamps and proceeds, returning success with effective
target 10, but the start embedded in imagelist.c (the one the facade
calls) reaches abort() on the clamp branch right after logging that it
will clamp, so there start does fail. -/
theorem c5_clamp_divergence :
    Swayimg.Prefetcher.start false 0 0 10 11 =
      Prefetcher.StartResult.ok (Prefetcher.initRing 10 10) ∧
    ImageListC.prefetcherStart 0 0 10 11 = Prefetcher.StartResult.aborted := by
  decide

/-- C6 counterexample: with a cache directory configured, a failed fopen
of the mirror file makes downloader_get_one return NULL without ever
performing the HTTP request, even though HTTP and decode would have
succeeded — the failure does abort the download. -/
theorem c6_fopen_abort_counterexample :
    (Downloader.downloaderGetOne (fun _ => some 1)
        { wwwUrl := "u", wwwCacheDir := some "d", cleanCacheAfterUse := false
        , curlHandle := true, memBuf := [], imgDownloadCnt := 0 }
        { fopenOk := false, chunks := [[7]], fwriteResults := [true]
        , httpOk := true }).performedHttp = false ∧
    (Downloader.downloaderGetOne (fun _ => some 1)
        { wwwUrl := "u", wwwCacheDir := some "d", cleanCacheAfterUse := false
        , curlHandle := true, memBuf := [], imgDownloadCnt := 0 }
        { fopenOk := false, chunks := [[7]], fwriteResults := [true]
        , httpOk := true }).ret = none := by
  exact ⟨rfl, rfl⟩

/-- C6 amended: failures to WRITE the mirror file are only logged and do
not abort the download — with fopen and HTTP succeeding the request is
performed and the decoded image returned whatever the fwrite results —
but a failure to OPEN the mirror file returns NULL before the HTTP
request runs. -/
theorem c6_disk_mirror_failures (imageCreate : List Nat → Option Img)
    (ctx : Downloader.DownloaderCtx) (env env2 : Downloader.FetchEnv)
    (fw : List Bool) (hopen : env.fopenOk = true) (hhttp : env.httpOk = true)
    (h2 : env2.fopenOk = false) (hdir : ctx.wwwCacheDir.isSome = true) :
    (Downloader.downloaderGetOne imageCreate ctx env).performedHttp = true ∧
    (Downloader.downloaderGetOne imageCreate ctx env).ret =
      imageCreate (ctx.memBuf ++ env.chunks.flatten) ∧
    (Downloader.downloaderGetOne imageCreate ctx
        { env with fwriteResults := fw }).ret =
      (Downloader.downloaderGetOne imageCreate ctx env).ret ∧
    (Downloader.downloaderGetOne imageCreate ctx env2).performedHttp = false ∧
    (Downloader.downloaderGetOne imageCreate ctx env2).ret = none := by
  obtain ⟨d, hd⟩ : ∃ d, ctx.wwwCacheDir = some d := by
    cases h : ctx.wwwCacheDir
    · rw [h] at hdir
      simp at hdir
    · exact ⟨_, rfl⟩
  refine ⟨?_, ?_, ?_, ?_, ?_⟩ <;>
    simp [Downloader.downloaderGetOne, Downloader.performFetch, hd, hopen,
      hhttp, h2]

/-- C6 witness: the amended statement evaluated on a concrete context and
environments, one with fwrite failures and a successful HTTP exchange and
one with a failing fopen. -/
theorem c6_disk_mirror_witness :
    ({ fopenOk := true, chunks := [[5], [6]], fwriteResults := [false]
     , httpOk := true } : Downloader.FetchEnv).fopenOk = true ∧
    ({ fopenOk := true, chunks := [[5], [6]], fwriteResults := [false]
     , httpOk := true } : Downloader.FetchEnv).httpOk = true ∧
    ({ fopenOk := false, chunks := [[7]], fwriteResults := []
     , httpOk := true } : Downloader.FetchEnv).fopenOk = false ∧
    ({ wwwUrl := "u", wwwCacheDir := some "d", cleanCacheAfterUse := false
     , curlHandle := true, memBuf := [9], imgDownloadCnt := 0 } :
        Downloader.DownloaderCtx).wwwCacheDir.isSome = true ∧
    ((Downloader.downloaderGetOne (fun b => some b.length)
        { wwwUrl := "u", wwwCacheDir := some "d", cleanCacheAfterUse := false
        , curlHandle := true, memBuf := [9], imgDownloadCnt := 0 }
        { fopenOk := true, chunks := [[5], [6]], fwriteResults := [false]
        , httpOk := true }).performedHttp = true ∧
     (Downloader.downloaderGetOne (fun b => some b.length)
        { wwwUrl := "u", wwwCacheDir := some "d", cleanCacheAfterUse := false
        , curlHandle := true, memBuf := [9], imgDownloadCnt := 0 }
        { fopenOk := true, chunks := [[5], [6]], fwriteResults := [false]
        , httpOk := true }).ret =
       (fun b : List Nat => some b.length) ([9] ++ [[5], [6]].flatten) ∧
     (Downloader.downloaderGetOne (fun b => some b.length)
        { wwwUrl := "u", wwwCacheDir := some "d", cleanCacheAfterUse := false
        , curlHandle := true, memBuf := [9], imgDownloadCnt := 0 }
        { fopenOk := true, chunks := [[5], [6]], fwriteResults := [true, true]
        , httpOk := true }).ret =
       (Downloader.downloaderGetOne (fun b => some b.length)
        { wwwUrl := "u", wwwCacheDir := some "d", cleanCacheAfterUse := false
        , curlHandle := true, memBuf := [9], imgDownloadCnt := 0 }
        { fopenOk := true, chunks := [[5], [6]], fwriteResults := [false]
        , httpOk := true }).ret ∧
     (Downloader.downloaderGetOne (fun b => some b.length)
        { wwwUrl := "u", wwwCacheDir := some "d", cleanCacheAfterUse := false
        , curlHandle := true, memBuf := [9], imgDownloadCnt := 0 }
        { fopenOk := false, chunks := [[7]], fwriteResults := []
        , httpOk := true }).performedHttp = false ∧
     (Downloader.downloaderGetOne (fun b => some b.length)
        { wwwUrl := "u", wwwCacheDir := some "d", cleanCacheAfterUse := false
        , curlHandle := true, memBuf := [9], imgDownloadCnt := 0 }
        { fopenOk := false, chunks := [[7]], fwriteResults := []
        , httpOk := true }).ret = none) :=
  ⟨rfl, rfl, rfl, rfl,
   c6_disk_mirror_failures (fun b => some b.length)
     { wwwUrl := "u", wwwCacheDir := some "d", cleanCacheAfterUse := false
     , curlHandle := true, memBuf := [9], imgDownloadCnt := 0 }
     { fopenOk := true, chunks := [[5], [6]], fwriteResults := [false]
     , httpOk := true }
     { fopenOk := false, chunks := [[7]], fwriteResults := []
     , httpOk := true }
     [true, true] rfl rfl rfl rfl⟩

/-- C7 counterexample: a first call whose HTTP exchange fails after
delivering bytes [1, 2] leaves those bytes in the in-memory buffer; the
next call receives body [3] but hands the decoder [1, 2, 3], so the
decoded buffer is not exactly the body of that call. -/
theorem c7_stale_buffer_counterexample :
    (Downloader.downloaderGetOne (fun _ => some 0)
        (Downloader.downloaderGetOne (fun _ => some 0)
            { wwwUrl := "u", wwwCacheDir := none, cleanCacheAfterUse := false
            , curlHandle := true, memBuf := [], imgDownloadCnt := 0 }
            { fopenOk := true, chunks := [[1, 2]], fwriteResults := []
            , httpOk := false }).ctx
        { fopenOk := true, chunks := [[3]], fwriteResults := []
        , httpOk := true }).decoderInput = some [1, 2, 3] ∧
    ([1, 2, 3] : List Nat) ≠ [3] := by
  exact ⟨rfl, by decide⟩

/-- C7 amended: the buffer handed to the decoder is the body received
during the call prefixed by whatever bytes previous HTTP-failed calls left
behind: a call that reaches the decoder consumes and resets the buffer,
while an HTTP-failed call retains its partial body for the next call. -/
theorem c7_decoder_buffer_contents (imageCreate : List Nat → Option Img)
    (ctx ctxF : Downloader.DownloaderCtx) (env envF : Downloader.FetchEnv)
    (hopen : env.fopenOk = true) (hopenF : envF.fopenOk = true)
    (hh : env.httpOk = true) (hhF : envF.httpOk = false) :
    (Downloader.downloaderGetOne imageCreate ctx env).decoderInput =
      some (ctx.memBuf ++ env.chunks.flatten) ∧
    (Downloader.downloaderGetOne imageCreate ctx env).ctx.memBuf = [] ∧
    (Downloader.downloaderGetOne imageCreate ctxF envF).decoderInput = none ∧
    (Downloader.downloaderGetOne imageCreate ctxF envF).ctx.memBuf =
      ctxF.memBuf ++ envF.chunks.flatten := by
  refine ⟨?_, ?_, ?_, ?_⟩ <;>
    cases hd : ctx.wwwCacheDir <;> cases hdF : ctxF.wwwCacheDir <;>
      simp [Downloader.downloaderGetOne, Downloader.performFetch, hd, hdF,
        hopen, hopenF, hh, hhF]

/-- C7 witness: the amended statement evaluated on concrete calls, one
reaching the decoder with a retained byte and one failing over HTTP. -/
theorem c7_decoder_buffer_witness :
    ({ fopenOk := true, chunks := [[2], [3]], fwriteResults := []
     , httpOk := true } : Downloader.FetchEnv).fopenOk = true ∧
    ({ fopenOk := true, chunks := [[4]], fwriteResults := []
     , httpOk := false } : Downloader.FetchEnv).fopenOk = true ∧
    ({ fopenOk := true, chunks := [[2], [3]], fwriteResults := []
     , httpOk := true } : Downloader.FetchEnv).httpOk = true ∧
    ({ fopenOk := true, chunks := [[4]], fwriteResults := []
     , httpOk := false } : Downloader.FetchEnv).httpOk = false ∧
    ((Downloader.downloaderGetOne (fun _ => some 0)
        { wwwUrl := "u", wwwCacheDir := none, cleanCacheAfterUse := false
        , curlHandle := true, memBuf := [1], imgDownloadCnt := 3 }
        { fopenOk := true, chunks := [[2], [3]], fwriteResults := []
        , httpOk := true }).decoderInput =
       some ([1] ++ [[2], [3]].flatten) ∧
     (Downloader.downloaderGetOne (fun _ => some 0)
        { wwwUrl := "u", wwwCacheDir := none, cleanCacheAfterUse := false
        , curlHandle := true, memBuf := [1], imgDownloadCnt := 3 }
        { fopenOk := true, chunks := [[2], [3]], fwriteResults := []
        , httpOk := true }).ctx.memBuf = [] ∧
     (Downloader.downloaderGetOne (fun _ => some 0)
        { wwwUrl := "u", wwwCacheDir := none, cleanCacheAfterUse := false
        , curlHandle := true, memBuf := [], imgDownloadCnt := 0 }
        { fopenOk := true, chunks := [[4]], fwriteResults := []
        , httpOk := false }).decoderInput = none ∧
     (Downloader.downloaderGetOne (fun _ => some 0)
        { wwwUrl := "u", wwwCacheDir := none, cleanCacheAfterUse := false
        , curlHandle := true, memBuf := [], imgDownloadCnt := 0 }
        { fopenOk := true, chunks := [[4]], fwriteResults := []
        , httpOk := false }).ctx.memBuf =
       ({ wwwUrl := "u", wwwCacheDir := none, cleanCacheAfterUse := false
        , curlHandle := true, memBuf := [], imgDownloadCnt := 0 } :
          Downloader.DownloaderCtx).memBuf ++ [[4]].flatten) :=
  ⟨rfl, rfl, rfl, rfl,
   c7_decoder_buffer_contents (fun _ => some 0)
     { wwwUrl := "u", wwwCacheDir := none, cleanCacheAfterUse := false
     , curlHandle := true, memBuf := [1], imgDownloadCnt := 3 }
     { wwwUrl := "u", wwwCacheDir := none, cleanCacheAfterUse := false
     , curlHandle := true, memBuf := [], imgDownloadCnt := 0 }
     { fopenOk := true, chunks := [[2], [3]], fwriteResults := []
     , httpOk := true }
     { fopenOk := true, chunks := [[4]], fwriteResults := []
     , httpOk := false }
     rfl rfl rfl rfl⟩

namespace Downloader

/-- One downloader_get_one call with a cache directory always targets the
mirror file named after the current counter, and always increments the
counter, whether or not fopen or the HTTP exchange fail. -/
theorem getOne_mirror_step (imageCreate : List Nat → Option Img)
    (ctx : DownloaderCtx) (env : FetchEnv) (d : String)
    (hd : ctx.wwwCacheDir = some d) :
    (downloaderGetOne imageCreate ctx env).mirrorPath =
      some (mirrorName d ctx.imgDownloadCnt) ∧
    (downloaderGetOne imageCreate ctx env).ctx.imgDownloadCnt =
      ctx.imgDownloadCnt + 1 ∧
    (downloaderGetOne imageCreate ctx env).ctx.wwwCacheDir = some d := by
  cases hopen : env.fopenOk <;> cases hhttp : env.httpOk <;>
    simp [downloaderGetOne, performFetch, hd, hopen, hhttp]

/-- Running a sequence of calls on a context with a cache directory
produces consecutive mirror filenames starting at the current counter. -/
theorem runCalls_mirror_sequence (imageCreate : List Nat → Option Img)
    (d : String) (envs : List FetchEnv) :
    ∀ ctx : DownloaderCtx, ctx.wwwCacheDir = some d →
      (runCalls imageCreate ctx envs).map (fun r => r.mirrorPath) =
        (List.range' ctx.imgDownloadCnt envs.length).map
          (fun n => some (mirrorName d n)) := by
  induction envs with
  | nil =>
      intro ctx hd
      simp [runCalls]
  | cons e rest ih =>
      intro ctx hd
      obtain ⟨hpath, hcnt, hdir⟩ := getOne_mirror_step imageCreate ctx e d hd
      have hstep : runCalls imageCreate ctx (e :: rest) =
          downloaderGetOne imageCreate ctx e ::
            runCalls imageCreate (downloaderGetOne imageCreate ctx e).ctx
              rest := rfl
      rw [hstep, List.map_cons, hpath, ih _ hdir, hcnt]
      simp [List.range'_succ]

end Downloader

/-- C8: from a freshly initialized downloader with a cache directory, the
k-th call (1-based, failures included) targets the mirror file
dir/(k−1)_img.jpg: the per-context sequence starts at 0 and increments on
every call. -/
theorem c8_mirror_filename_sequence (imageCreate : List Nat → Option Img)
    (u d : String) (clean : Bool) (envs : List Downloader.FetchEnv) :
    Downloader.downloaderInit (some u) (some d) true clean =
      some { wwwUrl := u, wwwCacheDir := some d, cleanCacheAfterUse := clean
           , curlHandle := true, memBuf := [], imgDownloadCnt := 0 } ∧
    (Downloader.runCalls imageCreate
        { wwwUrl := u, wwwCacheDir := some d, cleanCacheAfterUse := clean
        , curlHandle := true, memBuf := [], imgDownloadCnt := 0 } envs).map
        (fun r => r.mirrorPath) =
      (List.range envs.length).map
        (fun k => some (Downloader.mirrorName d k)) := by
  refine ⟨rfl, ?_⟩
  rw [Downloader.runCalls_mirror_sequence imageCreate d envs _ rfl,
    List.range_eq_range']

/-- C9: for every facade state, jump returns false and changes nothing
for first, last, next_dir and prev_dir; next_file and prev_file delegate
to the embedded prefetcher cursor operations, report whether the
prefetcher returned an image, and store as current the returned image
when one came back and the placeholder otherwise (Option.or); and
image_list_current then exposes that stored image. -/
theorem c9_facade_jump_behavior (s : ImageListC.FacadeState) :
    ImageListC.imageListJump ImageListC.ListJump.firstFile s = (false, s) ∧
    ImageListC.imageListJump ImageListC.ListJump.lastFile s = (false, s) ∧
    ImageListC.imageListJump ImageListC.ListJump.nextDir s = (false, s) ∧
    ImageListC.imageListJump ImageListC.ListJump.prevDir s = (false, s) ∧
    (ImageListC.imageListJump ImageListC.ListJump.nextFile s).1 =
      (ImageListC.jumpNextIL s.prefetcher).ret.isSome ∧
    (ImageListC.imageListJump ImageListC.ListJump.nextFile s).2.prefetcher =
      (ImageListC.jumpNextIL s.prefetcher).state ∧
    (ImageListC.imageListCurrent
        (ImageListC.imageListJump ImageListC.ListJump.nextFile s).2).image =
      ((ImageListC.jumpNextIL s.prefetcher).ret.or s.noImg) ∧
    (ImageListC.imageListJump ImageListC.ListJump.prevFile s).1 =
      (ImageListC.jumpPrevIL s.prefetcher).ret.isSome ∧
    (ImageListC.imageListJump ImageListC.ListJump.prevFile s).2.prefetcher =
      (ImageListC.jumpPrevIL s.prefetcher).state ∧
    (ImageListC.imageListCurrent
        (ImageListC.imageListJump ImageListC.ListJump.prevFile s).2).image =
      ((ImageListC.jumpPrevIL s.prefetcher).ret.or s.noImg) := by
  refine ⟨rfl, rfl, rfl, rfl, rfl, rfl, ?_, rfl, rfl, ?_⟩
  · cases h : (ImageListC.jumpNextIL s.prefetcher).ret <;>
      simp [ImageListC.imageListJump, ImageListC.imageListCurrent, h]
  · cases h : (ImageListC.jumpPrevIL s.prefetcher).ret <;>
      simp [ImageListC.imageListJump, ImageListC.imageListCurrent, h]

/-- C10: destroying a created-but-never-started prefetcher cancels and
joins no thread and only releases the (empty) ring state and the
structure; destroy on a NULL prefetcher handle and on a NULL downloader
handle performs no action at all. -/
theorem c10_destroy_safety :
    Prefetcher.prefetcherFree none = [] ∧
    Prefetcher.prefetcherFree (some Prefetcher.initCtx) =
      [Prefetcher.FreeAction.freeCacheArray, Prefetcher.FreeAction.freeCtxMem] ∧
    Prefetcher.FreeAction.cancelThread ∉
      Prefetcher.prefetcherFree (some Prefetcher.initCtx) ∧
    Prefetcher.FreeAction.joinThread ∉
      Prefetcher.prefetcherFree (some Prefetcher.initCtx) ∧
    Downloader.downloaderFree none = [] := by
  decide

end Swayimg
